import Mathlib

/-!
Shallow embedding of `breakhis_gradcam/utils.py` (training-loop utilities:
mixup data augmentation, epoch trainer, TTA-aware validator, learning-rate
group construction, optimizer/scheduler factory, checkpoint persistence).

Modelling conventions:
* Tensors are rational-valued lists: an image (or logit row) is `List ℚ`,
  a batch of images is `List (List ℚ)`, and a 5-d TTA batch
  `(bs, n_aug, c, h, w)` is `List (List (List ℚ))` (per example, per view,
  flattened pixels).
* Randomness (`np.random.beta` samples, `torch.randperm`) is passed in
  explicitly as data; distributional facts (e.g. Beta samples lie in
  `[0, 1]`) become hypotheses.
* External collaborators that the spec scopes out (the model's forward
  pass, autograd, `optimizer.step`) are abstract functions over an
  abstract state type `σ`.
* Python's division raises `ZeroDivisionError` on a zero denominator, so
  the epoch loops return `Option (ℚ × ℚ)`, `none` when no example was
  processed.
-/

/-- Pointwise scalar multiplication of a tensor row (`c * v` broadcast). -/
def vscale (c : ℚ) (v : List ℚ) : List ℚ := v.map (fun q => c * q)

/-- Pointwise addition of two tensor rows of equal shape. -/
def vadd (a b : List ℚ) : List ℚ := List.zipWith (fun p q => p + q) a b

/-- Sum of a list of rows (pointwise). `[]` for an empty list. -/
def vsum : List (List ℚ) → List ℚ
  | [] => []
  | r :: rs => rs.foldl vadd r

/-- Pointwise mean of a list of rows: models `tensor.mean(dim)` over a
stack of equally-shaped rows. -/
def vmean (rows : List (List ℚ)) : List ℚ :=
  vscale (1 / (rows.length : ℚ)) (vsum rows)

/-- `torch.argmax(v, -1)` on one row: index of the (first) maximum. -/
def argmaxAux : ℕ → ℕ → ℚ → List ℚ → ℕ
  | _, bi, _, [] => bi
  | i, bi, bv, q :: rest =>
      if bv < q then argmaxAux (i + 1) i q rest else argmaxAux (i + 1) bi bv rest

/-- `torch.argmax` over the last dimension of one logit row. -/
def argmaxIdx : List ℚ → ℕ
  | [] => 0
  | q :: rest => argmaxAux 1 0 q rest

/-- `(pred == target).sum().item()` for two equally-shaped 1-d tensors:
the number of positions where they agree (`zipWith` mirrors elementwise
comparison of same-shape tensors). -/
def countEq (pred target : List ℚ) : ℕ :=
  (List.zipWith (fun p t => decide (p = t)) pred target).count true

/-- In `mixup_data`, `lam` is either the Python scalar `1.` (the
`alpha <= 0` branch) or a per-example vector of shape `(n, 1, 1, 1)`
(the `alpha > 0` branch). -/
inductive LamT where
  | scalar (c : ℚ)
  | perExample (v : List ℚ)
deriving DecidableEq, Repr

/-- The mixing coefficient that multiplies example `i` (broadcast of the
scalar, or entry `i` of the per-example vector). -/
def LamT.coeff : LamT → ℕ → ℚ
  | .scalar c, _ => c
  | .perExample v, i => v.getD i 0

/-- `(lam * a + (1 - lam) * b).mean()` for scalars `a`, `b`: with scalar
`lam` the mean of a scalar is itself; with `lam` of shape `(n, 1, 1, 1)`
broadcasting gives an `n`-element tensor whose mean is the average of
`lam_i * a + (1 - lam_i) * b`. -/
def LamT.mixMean : LamT → ℚ → ℚ → ℚ
  | .scalar c, a, b => c * a + (1 - c) * b
  | .perExample v, a, b =>
      ((v.map (fun li => li * a + (1 - li) * b)).sum) / (v.length : ℚ)

/-- `(pred == mixed_y).sum().item()` where
`mixed_y = lam * y_a + (1 - lam) * y_b`: with scalar `lam`, `mixed_y` has
shape `(n,)` and the comparison is elementwise; with `lam` of shape
`(n, 1, 1, 1)`, broadcasting against `y` of shape `(n,)` makes `mixed_y`
shape `(n, 1, 1, n)` and the sum counts matches over all pairs `(i, j)`. -/
def LamT.mixAccCount (lam : LamT) (pred y_a y_b : List ℚ) : ℕ :=
  match lam with
  | .scalar c =>
      countEq pred (List.zipWith (fun a b => c * a + (1 - c) * b) y_a y_b)
  | .perExample v =>
      (v.map (fun li =>
        countEq pred (List.zipWith (fun a b => li * a + (1 - li) * b) y_a y_b))).sum

/-- The per-sample transform applied to the Beta samples
(`np.concatenate([lam[:, None], 1 - lam[:, None]], 1).max(1)`):
each sample is replaced by the larger of itself and its complement. -/
def betaAdjust (l : ℚ) : ℚ := max l (1 - l)

/-- Result record of `mixup_data`: mixed inputs, the pair of targets, the
mixing coefficients, and the two returned closures. -/
structure MixupData where
  mixed_x : List (List ℚ)
  y_a : List ℚ
  y_b : List ℚ
  lam : LamT
  mixup_criterion : List (List ℚ) → ℚ
  mixup_acc : List ℚ → ℕ

/-- `mixup_data(x, y, criterion, alpha)` from `utils.py`. The Beta
samples `lamRaw` (`np.random.beta(alpha, alpha, batch_size)`) and the
permutation `index` (`torch.randperm(batch_size)`) are the explicit
randomness. `criterion(pred, target)` is the external scalar-reducing
loss. `x[index, :]` permutes batch rows, so row `i` of the mixed input is
`lam_i * x_i + (1 - lam_i) * x_{index_i}`. -/
def mixup_data (criterion : List (List ℚ) → List ℚ → ℚ) (alpha : ℚ)
    (lamRaw : List ℚ) (index : List ℕ)
    (x : List (List ℚ)) (y : List ℚ) : MixupData :=
  let lam : LamT :=
    if 0 < alpha then .perExample (lamRaw.map betaAdjust) else .scalar 1
  let mixed_x : List (List ℚ) :=
    (List.range x.length).map (fun i =>
      vadd (vscale (lam.coeff i) (x.getD i []))
           (vscale (1 - lam.coeff i) (x.getD (index.getD i 0) [])))
  let y_a := y
  let y_b := index.map (fun j => y.getD j 0)
  { mixed_x := mixed_x
    y_a := y_a
    y_b := y_b
    lam := lam
    mixup_criterion := fun pred =>
      lam.mixMean (criterion pred y_a) (criterion pred y_b)
    mixup_acc := fun pred => lam.mixAccCount pred y_a y_b }

/-- Accumulator of the epoch loops: the external model/optimizer state
and the running statistics `total, total_loss, total_correct`. -/
structure RunAcc (σ : Type) where
  s : σ
  total : ℕ
  total_loss : ℚ
  total_correct : ℕ

/-- One iteration of `train`'s loop on batch `(x, y)` with mixup
randomness `(lamRaw, index)`: returns the per-batch
`(loss, batch_size, correct_count)` and the state after
`loss.backward(); optimizer.step(); scheduler.step()` (all external,
abstracted by `update`).  `forward` is `model(mixed_x)` in `model.train()`
mode. -/
def trainBatchEval {σ : Type}
    (forward : σ → List (List ℚ) → List (List ℚ))
    (update : σ → List (List ℚ) → σ)
    (criterion : List (List ℚ) → List ℚ → ℚ)
    (mixup : Bool) (alpha : ℚ) (s : σ)
    (b : (List (List ℚ) × List ℚ) × (List ℚ × List ℕ)) :
    (ℚ × ℕ × ℕ) × σ :=
  let x := b.1.1
  let y := b.1.2
  let md := mixup_data criterion (if mixup then alpha else 0) b.2.1 b.2.2 x y
  let output := forward s md.mixed_x
  let prediction := (output.map argmaxIdx).map (fun k => (k : ℚ))
  let loss := md.mixup_criterion output
  ((loss, y.length, md.mixup_acc prediction), update s md.mixed_x)

/-- `train`'s loop body: accumulate
`total_loss += loss.item() * len(y)`, `total_correct += mixup_acc(prediction)`,
`total += len(y)` and advance the external state. -/
def trainStep {σ : Type}
    (forward : σ → List (List ℚ) → List (List ℚ))
    (update : σ → List (List ℚ) → σ)
    (criterion : List (List ℚ) → List ℚ → ℚ)
    (mixup : Bool) (alpha : ℚ) (acc : RunAcc σ)
    (b : (List (List ℚ) × List ℚ) × (List ℚ × List ℕ)) : RunAcc σ :=
  let r := trainBatchEval forward update criterion mixup alpha acc.s b
  { s := r.2
    total := acc.total + r.1.2.1
    total_loss := acc.total_loss + r.1.1 * (r.1.2.1 : ℚ)
    total_correct := acc.total_correct + r.1.2.2 }

/-- The sequence of per-batch `(loss, batch_size, correct_count)` triples
produced along a training epoch (state threaded batch to batch). -/
def trainStats {σ : Type}
    (forward : σ → List (List ℚ) → List (List ℚ))
    (update : σ → List (List ℚ) → σ)
    (criterion : List (List ℚ) → List ℚ → ℚ)
    (mixup : Bool) (alpha : ℚ) :
    σ → List ((List (List ℚ) × List ℚ) × (List ℚ × List ℕ)) →
    List (ℚ × ℕ × ℕ)
  | _, [] => []
  | s, b :: rest =>
      let r := trainBatchEval forward update criterion mixup alpha s b
      r.1 :: trainStats forward update criterion mixup alpha r.2 rest

/-- `train(model, epoch, dataloader, criterion, optimizer, scheduler,
mixup, alpha)` from `utils.py`.  `dataloader` is the list of `(x, y)`
batches; `rands` supplies each batch's mixup randomness.  Returns
`(final_loss, final_acc) = (total_loss / total, total_correct / total)`,
or `none` when `total = 0` (Python raises `ZeroDivisionError`). -/
def train {σ : Type}
    (forward : σ → List (List ℚ) → List (List ℚ))
    (update : σ → List (List ℚ) → σ)
    (criterion : List (List ℚ) → List ℚ → ℚ)
    (mixup : Bool) (alpha : ℚ) (s0 : σ)
    (dataloader : List (List (List ℚ) × List ℚ))
    (rands : List (List ℚ × List ℕ)) : Option (ℚ × ℚ) :=
  let a := (dataloader.zip rands).foldl
    (trainStep forward update criterion mixup alpha) ⟨s0, 0, 0, 0⟩
  if a.total = 0 then none
  else some (a.total_loss / (a.total : ℚ), (a.total_correct : ℚ) / (a.total : ℚ))

/-- One iteration of `validate`'s loop without TTA: `output = model(x)`,
`prediction = argmax(output, -1)`, `loss = criterion(output, y)`,
`correct = (prediction == y).sum().item()`.  `model.eval()` under
`torch.no_grad()` leaves the model unchanged, so `model` is a pure
function. -/
def validateBatchEval
    (model : List (List ℚ) → List (List ℚ))
    (criterion : List (List ℚ) → List ℚ → ℚ)
    (b : List (List ℚ) × List ℚ) : ℚ × ℕ × ℕ :=
  let output := model b.1
  let prediction := (output.map argmaxIdx).map (fun k => (k : ℚ))
  (criterion output b.2, b.2.length, countEq prediction b.2)

/-- Split a list into consecutive chunks of size `k`: models
`tensor.view(bs, n_aug, -1)` applied to `bs * n_aug` rows. -/
def chunk (k : ℕ) (l : List α) : List (List α) :=
  (List.range (l.length / k)).map (fun i => (l.drop (i * k)).take k)

/-- The blended TTA output for one example's stack of per-view logit
rows: `(1 - tta_mixing) * output[:, -1, :] + tta_mixing * output[:, :-1, :].mean(1)`. -/
def ttaBlend (tta_mixing : ℚ) (views : List (List ℚ)) : List ℚ :=
  vadd (vscale (1 - tta_mixing) (views.getLastD []))
       (vscale tta_mixing (vmean views.dropLast))

/-- The batch output computed by `validate` when `tta=True`: the 5-d
batch `x` of shape `(bs, n_aug, c, h, w)` is flattened to
`(bs * n_aug, c, h, w)` (`x.view(-1, c, h, w)` is `x.flatten` here), run
through the model, reshaped to `(bs, n_aug, -1)` (`chunk n_aug`), and
each example's views are blended by `ttaBlend`. -/
def validateTtaOutput
    (model : List (List ℚ) → List (List ℚ))
    (tta_mixing : ℚ) (x : List (List (List ℚ))) : List (List ℚ) :=
  let n_aug := (x.headD []).length
  (chunk n_aug (model x.flatten)).map (ttaBlend tta_mixing)

/-- One iteration of `validate`'s loop with `tta=True` on a 5-d batch. -/
def validateTtaBatchEval
    (model : List (List ℚ) → List (List ℚ))
    (criterion : List (List ℚ) → List ℚ → ℚ) (tta_mixing : ℚ)
    (b : List (List (List ℚ)) × List ℚ) : ℚ × ℕ × ℕ :=
  let output := validateTtaOutput model tta_mixing b.1
  let prediction := (output.map argmaxIdx).map (fun k => (k : ℚ))
  (criterion output b.2, b.2.length, countEq prediction b.2)

/-- Fold the running statistics of `validate` over per-batch
`(loss, batch_size, correct_count)` triples, then divide.  Shared by the
`tta=False` and `tta=True` forms of `validate`. -/
def validateAccumulate (stats : List (ℚ × ℕ × ℕ)) : Option (ℚ × ℚ) :=
  let a := stats.foldl
    (fun (acc : ℕ × ℚ × ℕ) r =>
      (acc.1 + r.2.1, acc.2.1 + r.1 * (r.2.1 : ℚ), acc.2.2 + r.2.2))
    (0, 0, 0)
  if a.1 = 0 then none
  else some (a.2.1 / (a.1 : ℚ), (a.2.2 : ℚ) / (a.1 : ℚ))

/-- `validate(model, epoch, dataloader, criterion)` with `tta=False`
(4-d batches).  Returns `(final_loss, final_acc)`, or `none` when no
example was processed (Python raises `ZeroDivisionError`). -/
def validate
    (model : List (List ℚ) → List (List ℚ))
    (criterion : List (List ℚ) → List ℚ → ℚ)
    (dataloader : List (List (List ℚ) × List ℚ)) : Option (ℚ × ℚ) :=
  validateAccumulate (dataloader.map (validateBatchEval model criterion))

/-- `validate(model, epoch, dataloader, criterion, tta=True, tta_mixing)`
(5-d batches). -/
def validateTta
    (model : List (List ℚ) → List (List ℚ))
    (criterion : List (List ℚ) → List ℚ → ℚ) (tta_mixing : ℚ)
    (dataloader : List (List (List (List ℚ)) × List ℚ)) : Option (ℚ × ℚ) :=
  validateAccumulate
    (dataloader.map (validateTtaBatchEval model criterion tta_mixing))

/-- The `params` entry of a parameter group as `get_param_lr_maps` builds
it: the float branch stores the whole list of `(name, tensor)` pairs, the
tuple branch stores one tensor per group, and the head group stores
`model.out_fc.parameters()`. `P` is the external tensor type. -/
inductive Params (P : Type) where
  | namedList (l : List (List String × P))
  | single (p : P)
  | plist (l : List P)
deriving DecidableEq, Repr

/-- One `{'params': ..., 'lr': ...}` dictionary. -/
structure ParamGroup (P : Type) where
  params : Params P
  lr : ℚ
deriving DecidableEq, Repr

/-- `body_parameters`: the `(name, tensor)` pairs of
`model.named_parameters()` whose name's first dot-separated component is
not `'out_fc'`.  A Python name like `'layer1.0.conv.weight'` is
represented by its dot-separated component list
`["layer1", "0", "conv", "weight"]`, so `name.split('.')[0]` is
`name.headD ""`. -/
def bodyParameters {P : Type} (named : List (List String × P)) :
    List (List String × P) :=
  named.filter (fun np => np.1.headD "" ≠ "out_fc")

/-- Modelled `np.geomspace(start, stop, num)`: the geometric progression
`start * r ^ k` for `k < num`.  Rationals have no real roots, so the
common ratio `r = (stop / start) ^ (1 / (num - 1))` is supplied
explicitly; theorems carry the endpoint condition
`start * r ^ (num - 1) = stop` as a hypothesis. -/
def geomspace (r start : ℚ) (num : ℕ) : List ℚ :=
  (List.range num).map (fun k => start * r ^ k)

/-- `get_param_lr_maps(model, base_lr, finetune_body_factor)` from
`utils.py`.  The model's parameter tree is external: `named` is
`model.named_parameters()` and `out_fc_params` is
`model.out_fc.parameters()`.  `fbf` is `.inl factor` when
`type(finetune_body_factor) is float` and `.inr (lower, upper)` when it
is a pair; `r` is the geomspace ratio (see `geomspace`), unused in the
float branch. -/
def get_param_lr_maps {P : Type} (named : List (List String × P))
    (out_fc_params : List P) (base_lr : ℚ) (fbf : ℚ ⊕ (ℚ × ℚ)) (r : ℚ) :
    List (ParamGroup P) :=
  let body := bodyParameters named
  match fbf with
  | .inl factor =>
      [⟨.namedList body, base_lr * factor⟩, ⟨.plist out_fc_params, base_lr⟩]
  | .inr bounds =>
      let lrs := geomspace r (base_lr * bounds.1) body.length
      (List.zipWith (fun (np : List String × P) lr =>
          ParamGroup.mk (.single np.2) lr) body lrs)
        ++ [⟨.plist out_fc_params, base_lr⟩]

/-- `torch.optim.AdamW(param_lr_maps, lr=base_lr)` as the configuration
record the constructor receives (the optimizer's internals are
external). `G` is the parameter-group type. -/
structure AdamW (G : Type) where
  param_groups : List G
  lr : ℚ
deriving DecidableEq, Repr

/-- `torch.optim.lr_scheduler.OneCycleLR(optimizer, max_lr, epochs=...,
steps_per_epoch=...)` as the configuration record the constructor
receives. -/
structure OneCycleLR (O : Type) where
  optimizer : O
  max_lr : ℚ
  epochs : ℕ
  steps_per_epoch : ℕ
deriving DecidableEq, Repr

/-- `setup_optimizer_and_scheduler(param_lr_maps, base_lr, epochs,
steps_per_epoch)` from `utils.py`. -/
def setup_optimizer_and_scheduler {G : Type} (param_lr_maps : List G)
    (base_lr : ℚ) (epochs steps_per_epoch : ℕ) :
    AdamW G × OneCycleLR (AdamW G) :=
  let optimizer : AdamW G := ⟨param_lr_maps, base_lr⟩
  (optimizer, ⟨optimizer, base_lr, epochs, steps_per_epoch⟩)

/-- The record `checkpoint_state` passes to `torch.save`, with exactly
the fields the source dictionary names.  `MS`, `OS`, `SS` are the
external state-dict types of model, optimizer and scheduler. -/
structure Checkpoint (MS OS SS : Type) where
  model_state_dict : MS
  optimizer_state_dict : OS
  scheduler_state_dict : Option SS
  train_loss : ℚ
  train_acc : ℚ
  val_loss : ℚ
  val_acc : ℚ
  epoch : ℕ
deriving DecidableEq, Repr

/-- `checkpoint_state(model, epoch, optimizer, scheduler, train_loss,
train_acc, val_loss, val_acc)` from `utils.py`: the path
`os.path.join(model.save_dir, 'epoch_%d.pth' % epoch)` and the saved
record (`torch.save`'s file I/O is external).  `modelSd`/`optSd` are the
states `model.state_dict()`/`optimizer.state_dict()` return, `schedSd`
is `.state_dict()` on the scheduler. -/
def checkpoint_state {MS OS S SS : Type} (save_dir : String) (modelSd : MS)
    (epoch : ℕ) (optSd : OS) (scheduler : Option S) (schedSd : S → SS)
    (train_loss train_acc val_loss val_acc : ℚ) :
    String × Checkpoint MS OS SS :=
  (save_dir ++ "/" ++ "epoch_" ++ toString epoch ++ ".pth",
   { model_state_dict := modelSd
     optimizer_state_dict := optSd
     scheduler_state_dict :=
       match scheduler with
       | none => none
       | some s => some (schedSd s)
     train_loss := train_loss
     train_acc := train_acc
     val_loss := val_loss
     val_acc := val_acc
     epoch := epoch })

/-- The spec's glossary sentence for TTA taken literally ("averaging
predictions over multiple augmented views", each view contributing
equally): the plain per-example mean over all views, for comparison with
`validateTtaOutput`. -/
def ttaEqualAverageOutput
    (model : List (List ℚ) → List (List ℚ))
    (x : List (List (List ℚ))) : List (List ℚ) :=
  let n_aug := (x.headD []).length
  (chunk n_aug (model x.flatten)).map vmean

/-! ## Helper lemmas -/

theorem getD_map_of_lt {α β : Type} (l : List α) (f : α → β) (i : ℕ)
    (d : β) (d' : α) (h : i < l.length) :
    (l.map f).getD i d = f (l.getD i d') := by
  rw [List.getD_eq_getElem?_getD, List.getD_eq_getElem?_getD,
    List.getElem?_map, List.getElem?_eq_getElem h]
  rfl

theorem range_map_getD {β : Type} (n : ℕ) (f : ℕ → β) (i : ℕ) (d : β)
    (h : i < n) :
    ((List.range n).map f).getD i d = f i := by
  rw [getD_map_of_lt _ _ _ _ 0 (by simpa using h)]
  rw [List.getD_eq_getElem?_getD, List.getElem?_range h]
  rfl

/-! ## Claim theorems -/

/-- C6: `checkpoint_state` writes to `save_dir/epoch_<epoch>.pth` a record
with exactly the fields `model_state_dict`, `optimizer_state_dict`,
`scheduler_state_dict`, `train_loss`, `train_acc`, `val_loss`, `val_acc`
and `epoch`, where `scheduler_state_dict` is `None` when the scheduler is
`None` and the scheduler's state otherwise. -/
theorem checkpoint_state_spec {MS OS S SS : Type} (save_dir : String)
    (modelSd : MS) (epoch : ℕ) (optSd : OS) (scheduler : Option S)
    (schedSd : S → SS) (tl ta vl va : ℚ) :
    checkpoint_state save_dir modelSd epoch optSd scheduler schedSd tl ta vl va
      = (save_dir ++ "/" ++ "epoch_" ++ toString epoch ++ ".pth",
         { model_state_dict := modelSd
           optimizer_state_dict := optSd
           scheduler_state_dict := Option.map schedSd scheduler
           train_loss := tl
           train_acc := ta
           val_loss := vl
           val_acc := va
           epoch := epoch }) := by
  cases scheduler <;> rfl

/-- C7: `setup_optimizer_and_scheduler` returns an AdamW optimizer over
exactly the given parameter groups with default learning rate `base_lr`,
and a OneCycleLR scheduler attached to that same optimizer with max
learning rate `base_lr`, the given epochs and steps per epoch. -/
theorem setup_optimizer_and_scheduler_spec {G : Type}
    (param_lr_maps : List G) (base_lr : ℚ) (epochs steps_per_epoch : ℕ) :
    (setup_optimizer_and_scheduler param_lr_maps base_lr epochs
        steps_per_epoch).1.param_groups = param_lr_maps ∧
    (setup_optimizer_and_scheduler param_lr_maps base_lr epochs
        steps_per_epoch).1.lr = base_lr ∧
    (setup_optimizer_and_scheduler param_lr_maps base_lr epochs
        steps_per_epoch).2.optimizer
      = (setup_optimizer_and_scheduler param_lr_maps base_lr epochs
        steps_per_epoch).1 ∧
    (setup_optimizer_and_scheduler param_lr_maps base_lr epochs
        steps_per_epoch).2.max_lr = base_lr ∧
    (setup_optimizer_and_scheduler param_lr_maps base_lr epochs
        steps_per_epoch).2.epochs = epochs ∧
    (setup_optimizer_and_scheduler param_lr_maps base_lr epochs
        steps_per_epoch).2.steps_per_epoch = steps_per_epoch :=
  ⟨rfl, rfl, rfl, rfl, rfl, rfl⟩

/-- C10: on an empty dataloader the loops process zero examples, so the
accumulated `total` is `0` and both `train` and `validate` hit the final
division `total_loss / total` with a zero denominator (`none` here,
`ZeroDivisionError` in Python) instead of returning a result. -/
theorem train_validate_empty_dataloader {σ : Type}
    (forward : σ → List (List ℚ) → List (List ℚ))
    (update : σ → List (List ℚ) → σ)
    (criterion : List (List ℚ) → List ℚ → ℚ)
    (mixup : Bool) (alpha : ℚ) (s0 : σ)
    (rands : List (List ℚ × List ℕ))
    (model : List (List ℚ) → List (List ℚ))
    (crit : List (List ℚ) → List ℚ → ℚ) :
    ((([] : List (List (List ℚ) × List ℚ)).zip rands).foldl
        (trainStep forward update criterion mixup alpha)
        ⟨s0, 0, 0, 0⟩).total = 0 ∧
    train forward update criterion mixup alpha s0 [] rands = none ∧
    validate model crit [] = none :=
  ⟨rfl, rfl, rfl⟩

/-- C5: with a float `finetune_body_factor`, `get_param_lr_maps` returns
exactly two groups: all body parameters (first name component not
`'out_fc'`) at `base_lr * finetune_body_factor`, then the `out_fc` head
parameters at `base_lr`; body and `out_fc`-named parameters together are
a permutation of all named parameters, so each belongs to exactly one
group. -/
theorem get_param_lr_maps_float_spec {P : Type}
    (named : List (List String × P)) (out_fc_params : List P)
    (base_lr factor r : ℚ) :
    get_param_lr_maps named out_fc_params base_lr (.inl factor) r
      = [⟨.namedList (bodyParameters named), base_lr * factor⟩,
         ⟨.plist out_fc_params, base_lr⟩] ∧
    (bodyParameters named
      ++ named.filter (fun np => np.1.headD "" = "out_fc")).Perm named := by
  refine ⟨rfl, ?_⟩
  have h := List.filter_append_perm
    (fun (np : List String × P) => np.1.headD "" ≠ "out_fc") named
  have e : named.filter
        (fun np => !(decide (np.1.headD "" ≠ "out_fc")))
      = named.filter (fun np => np.1.headD "" = "out_fc") := by
    apply List.filter_congr
    intro a _
    simp [decide_not]
  rw [bodyParameters]
  rw [← e]
  exact h

/-- C9: with `alpha > 0` every per-example mixing coefficient produced by
`mixup_data` is `max l (1 - l)` of a Beta sample `l`; given that Beta
samples lie in `[0, 1]`, every coefficient lies in `[1/2, 1]`, so the
original example always receives at least half the mixing weight. -/
theorem mixup_lam_bounds
    (criterion : List (List ℚ) → List ℚ → ℚ) (alpha : ℚ)
    (lamRaw : List ℚ) (index : List ℕ) (x : List (List ℚ)) (y : List ℚ)
    (halpha : 0 < alpha)
    (hsupport : ∀ l ∈ lamRaw, 0 ≤ l ∧ l ≤ 1) :
    (mixup_data criterion alpha lamRaw index x y).lam
        = .perExample (lamRaw.map betaAdjust) ∧
    ∀ li ∈ lamRaw.map betaAdjust, 1 / 2 ≤ li ∧ li ≤ 1 := by
  constructor
  · simp [mixup_data, halpha]
  · intro li hli
    rcases List.mem_map.mp hli with ⟨l, hl, rfl⟩
    rcases hsupport l hl with ⟨h0, h1⟩
    unfold betaAdjust
    constructor
    · rcases le_total l (1 / 2) with h | h
      · exact le_max_of_le_right (by linarith)
      · exact le_max_of_le_left h
    · exact max_le h1 (by linarith)

theorem vscale_one (v : List ℚ) : vscale 1 v = v := by
  simp [vscale]

theorem vadd_vscale_zero (v w : List ℚ) (h : w.length = v.length) :
    vadd v (vscale 0 w) = v := by
  induction v generalizing w with
  | nil => simp [vadd]
  | cons a as ih =>
      cases w with
      | nil => simp at h
      | cons b bs =>
          have e0 : vadd (a :: as) (vscale 0 (b :: bs))
              = (a + 0 * b) :: vadd as (vscale 0 bs) := rfl
          have e1 : a + 0 * b = a := by ring
          rw [e0, e1, ih bs (by simpa using h)]

/-- C8: with `alpha <= 0` (in particular the `alpha = 0.0` that `train`
passes when `mixup=False`), `mixup_data` sets `lam = 1`, the mixed input
is exactly `x`, the first target is `y`, and the returned
`mixup_criterion` is the plain `criterion(pred, y)`; mixup is the
identity augmentation.  The last conjunct records that `train`'s loop
body with `mixup=False` behaves as with `alpha = 0`. -/
theorem mixup_data_nonpos_identity {σ : Type}
    (forward : σ → List (List ℚ) → List (List ℚ))
    (update : σ → List (List ℚ) → σ)
    (criterion : List (List ℚ) → List ℚ → ℚ) (alpha : ℚ)
    (lamRaw : List ℚ) (index : List ℕ) (x : List (List ℚ)) (y : List ℚ)
    (s : σ) (b : (List (List ℚ) × List ℚ) × (List ℚ × List ℕ))
    (pred : List (List ℚ)) (d : ℕ)
    (halpha : alpha ≤ 0)
    (hidx_len : index.length = x.length)
    (hidx : ∀ j ∈ index, j < x.length)
    (hrows : ∀ row ∈ x, row.length = d) :
    (mixup_data criterion alpha lamRaw index x y).lam = .scalar 1 ∧
    (mixup_data criterion alpha lamRaw index x y).mixed_x = x ∧
    (mixup_data criterion alpha lamRaw index x y).y_a = y ∧
    (mixup_data criterion alpha lamRaw index x y).mixup_criterion pred
        = criterion pred y ∧
    trainBatchEval forward update criterion false alpha s b
        = trainBatchEval forward update criterion false 0 s b := by
  have hcond : ¬ (0 < alpha) := not_lt.mpr halpha
  refine ⟨by simp [mixup_data, hcond], ?_, rfl, ?_, rfl⟩
  · show (List.range x.length).map _ = x
    apply List.ext_getElem
    · simp
    · intro i h1 h2
      simp only [List.getElem_map, List.getElem_range, hcond, if_false]
      have hi : i < x.length := by simpa using h1
      have hcoeff : (LamT.scalar 1).coeff i = 1 := rfl
      rw [hcoeff, vscale_one]
      have hxi : x.getD i [] = x[i] := List.getD_eq_getElem x [] hi
      have hjmem : index.getD i 0 ∈ index := by
        have : i < index.length := by rw [hidx_len]; exact hi
        rw [List.getD_eq_getElem index 0 this]
        exact List.getElem_mem this
      have hj : index.getD i 0 < x.length := hidx _ hjmem
      have hlen : (x.getD (index.getD i 0) []).length = x[i].length := by
        rw [List.getD_eq_getElem x [] hj]
        rw [hrows _ (List.getElem_mem hj), hrows _ (List.getElem_mem hi)]
      have hz : (1 : ℚ) - 1 = 0 := by norm_num
      rw [hxi, hz, vadd_vscale_zero _ _ hlen]
  · show LamT.mixMean (if 0 < alpha then _ else .scalar 1) _ _ = _
    rw [if_neg hcond]
    show 1 * criterion pred y + (1 - 1) * criterion pred _ = criterion pred y
    ring

/-- C1: with `alpha > 0`, `mixup_data` mixes row `i` of the batch as
`lam_i * x_i + (1 - lam_i) * x_{index_i}` for a single permutation
`index` of `{0..n-1}` and per-example coefficients
`lam_i = max(beta_i, 1 - beta_i)`, returns the target pair
`(y, y[index])`, and the returned `mixup_criterion` on a prediction is
the mean over examples of
`lam_i * criterion(pred, y_a) + (1 - lam_i) * criterion(pred, y_b)`. -/
theorem mixup_data_pos_spec
    (criterion : List (List ℚ) → List ℚ → ℚ) (alpha : ℚ)
    (lamRaw : List ℚ) (index : List ℕ) (x : List (List ℚ)) (y : List ℚ)
    (halpha : 0 < alpha)
    (hperm : index.Perm (List.range x.length))
    (hlam : lamRaw.length = x.length) :
    (mixup_data criterion alpha lamRaw index x y).lam
        = .perExample (lamRaw.map betaAdjust) ∧
    (mixup_data criterion alpha lamRaw index x y).mixed_x.length
        = x.length ∧
    (∀ i, i < x.length →
      (mixup_data criterion alpha lamRaw index x y).mixed_x.getD i [] =
        vadd (vscale (betaAdjust (lamRaw.getD i 0)) (x.getD i []))
             (vscale (1 - betaAdjust (lamRaw.getD i 0))
                     (x.getD (index.getD i 0) []))) ∧
    (mixup_data criterion alpha lamRaw index x y).y_a = y ∧
    (mixup_data criterion alpha lamRaw index x y).y_b
        = index.map (fun j => y.getD j 0) ∧
    (∀ pred,
      (mixup_data criterion alpha lamRaw index x y).mixup_criterion pred =
        ((lamRaw.map betaAdjust).map (fun li =>
            li * criterion pred y
              + (1 - li) * criterion pred
                  (index.map (fun j => y.getD j 0)))).sum
          / (x.length : ℚ)) := by
  refine ⟨by simp [mixup_data, halpha], by simp [mixup_data], ?_, rfl, rfl, ?_⟩
  · intro i hi
    show ((List.range x.length).map _).getD i [] = _
    rw [range_map_getD _ _ _ _ hi]
    simp only [halpha, if_true]
    have hcoeff : (LamT.perExample (lamRaw.map betaAdjust)).coeff i
        = betaAdjust (lamRaw.getD i 0) := by
      show (lamRaw.map betaAdjust).getD i 0 = _
      exact getD_map_of_lt lamRaw betaAdjust i 0 0 (by rw [hlam]; exact hi)
    rw [hcoeff]
  · intro pred
    show LamT.mixMean (if 0 < alpha then _ else _) _ _ = _
    rw [if_pos halpha]
    show ((lamRaw.map betaAdjust).map _).sum / ((lamRaw.map betaAdjust).length : ℚ)
        = _
    rw [List.length_map, hlam]

theorem get_param_lr_maps_pair_eq {P : Type}
    (named : List (List String × P)) (out_fc_params : List P)
    (base_lr lo hi r : ℚ) :
    get_param_lr_maps named out_fc_params base_lr (.inr (lo, hi)) r
      = (List.zipWith (fun (np : List String × P) lr =>
            ParamGroup.mk (.single np.2) lr)
          (bodyParameters named)
          (geomspace r (base_lr * lo) (bodyParameters named).length))
        ++ [⟨.plist out_fc_params, base_lr⟩] := rfl

theorem pairGroups_getElem? {P : Type} (body : List (List String × P))
    (a r : ℚ) (k : ℕ) (hk : k < body.length) :
    (List.zipWith (fun (np : List String × P) lr =>
        ParamGroup.mk (.single np.2) lr) body (geomspace r a body.length))[k]?
      = some ⟨.single (body[k].2), a * r ^ k⟩ := by
  rw [List.getElem?_zipWith, List.getElem?_eq_getElem hk]
  have hg : (geomspace r a body.length)[k]? = some (a * r ^ k) := by
    simp [geomspace, List.getElem?_range hk]
  rw [hg]

/-- C2: with a pair `finetune_body_factor = (lower, upper)`,
`get_param_lr_maps` returns one group per body parameter, in
body-parameter order, with learning rates forming the geometric
progression `base_lr * lower * r ^ k` (consecutive ratio `r`) whose first
term is `base_lr * lower` and — under the `np.geomspace` endpoint
condition — whose last term is `base_lr * upper`, followed by one final
group holding the `out_fc` head parameters at exactly `base_lr`. -/
theorem get_param_lr_maps_pair_spec {P : Type}
    (named : List (List String × P)) (out_fc_params : List P)
    (base_lr lo hi r : ℚ)
    (hm : 1 ≤ (bodyParameters named).length)
    (hend : (base_lr * lo) * r ^ ((bodyParameters named).length - 1)
        = base_lr * hi) :
    (get_param_lr_maps named out_fc_params base_lr (.inr (lo, hi)) r).length
        = (bodyParameters named).length + 1 ∧
    (∀ k, k < (bodyParameters named).length →
      (get_param_lr_maps named out_fc_params base_lr (.inr (lo, hi)) r)[k]?
        = ((bodyParameters named)[k]?).map (fun np =>
            ⟨.single np.2, (base_lr * lo) * r ^ k⟩)) ∧
    (∀ k, k + 1 < (bodyParameters named).length →
      ((get_param_lr_maps named out_fc_params base_lr
          (.inr (lo, hi)) r)[k + 1]?).map ParamGroup.lr
        = (((get_param_lr_maps named out_fc_params base_lr
            (.inr (lo, hi)) r)[k]?).map ParamGroup.lr).map (fun q => r * q)) ∧
    ((get_param_lr_maps named out_fc_params base_lr
        (.inr (lo, hi)) r)[0]?).map ParamGroup.lr = some (base_lr * lo) ∧
    ((get_param_lr_maps named out_fc_params base_lr (.inr (lo, hi)) r)[
        (bodyParameters named).length - 1]?).map ParamGroup.lr
      = some (base_lr * hi) ∧
    (get_param_lr_maps named out_fc_params base_lr (.inr (lo, hi)) r)[
        (bodyParameters named).length]?
      = some ⟨.plist out_fc_params, base_lr⟩ := by
  have hzlen : (List.zipWith (fun (np : List String × P) lr =>
      ParamGroup.mk (.single np.2) lr)
      (bodyParameters named)
      (geomspace r (base_lr * lo) (bodyParameters named).length)).length
      = (bodyParameters named).length := by
    simp [List.length_zipWith, geomspace]
  have hget : ∀ k (hk : k < (bodyParameters named).length),
      (get_param_lr_maps named out_fc_params base_lr (.inr (lo, hi)) r)[k]?
        = some ⟨.single ((bodyParameters named).get ⟨k, hk⟩).2,
            (base_lr * lo) * r ^ k⟩ := by
    intro k hk
    rw [get_param_lr_maps_pair_eq, List.getElem?_append]
    rw [if_pos (by rw [hzlen]; exact hk)]
    exact pairGroups_getElem? _ _ _ _ hk
  refine ⟨?_, ?_, ?_, ?_, ?_, ?_⟩
  · rw [get_param_lr_maps_pair_eq]
    simp [hzlen]
  · intro k hk
    rw [hget k hk, List.getElem?_eq_getElem hk]
    rfl
  · intro k hk
    have hk' : k < (bodyParameters named).length := by omega
    rw [hget k hk', hget (k + 1) hk]
    simp only [Option.map_some']
    congr 1
    rw [pow_succ]
    ring
  · rw [hget 0 (by omega)]
    simp
  · rw [hget _ (by omega)]
    simp only [Option.map_some']
    rw [hend]
  · rw [get_param_lr_maps_pair_eq, List.getElem?_append]
    rw [if_neg (by rw [hzlen]; omega), hzlen]
    simp

theorem trainStats_cons {σ : Type}
    (forward : σ → List (List ℚ) → List (List ℚ))
    (update : σ → List (List ℚ) → σ)
    (criterion : List (List ℚ) → List ℚ → ℚ)
    (mixup : Bool) (alpha : ℚ) (s : σ)
    (b : (List (List ℚ) × List ℚ) × (List ℚ × List ℕ))
    (rest : List ((List (List ℚ) × List ℚ) × (List ℚ × List ℕ))) :
    trainStats forward update criterion mixup alpha s (b :: rest)
      = (trainBatchEval forward update criterion mixup alpha s b).1
        :: trainStats forward update criterion mixup alpha
            (trainBatchEval forward update criterion mixup alpha s b).2 rest :=
  rfl

theorem trainStep_eval {σ : Type}
    (forward : σ → List (List ℚ) → List (List ℚ))
    (update : σ → List (List ℚ) → σ)
    (criterion : List (List ℚ) → List ℚ → ℚ)
    (mixup : Bool) (alpha : ℚ) (s : σ) (t0 : ℕ) (l0 : ℚ) (c0 : ℕ)
    (b : (List (List ℚ) × List ℚ) × (List ℚ × List ℕ)) :
    trainStep forward update criterion mixup alpha ⟨s, t0, l0, c0⟩ b
      = ⟨(trainBatchEval forward update criterion mixup alpha s b).2,
         t0 + (trainBatchEval forward update criterion mixup alpha s b).1.2.1,
         l0 + (trainBatchEval forward update criterion mixup alpha s b).1.1
            * ((trainBatchEval forward update criterion mixup alpha s b).1.2.1 : ℚ),
         c0 + (trainBatchEval forward update criterion mixup alpha s b).1.2.2⟩ :=
  rfl

theorem train_foldl_total {σ : Type}
    (forward : σ → List (List ℚ) → List (List ℚ))
    (update : σ → List (List ℚ) → σ)
    (criterion : List (List ℚ) → List ℚ → ℚ)
    (mixup : Bool) (alpha : ℚ) :
    ∀ (bs : List ((List (List ℚ) × List ℚ) × (List ℚ × List ℕ)))
      (s : σ) (t0 : ℕ) (l0 : ℚ) (c0 : ℕ),
    (bs.foldl (trainStep forward update criterion mixup alpha)
        ⟨s, t0, l0, c0⟩).total
      = t0 + ((trainStats forward update criterion mixup alpha s bs).map
          (fun r => r.2.1)).sum := by
  intro bs
  induction bs with
  | nil => intro s t0 l0 c0; simp [trainStats]
  | cons b rest ih =>
      intro s t0 l0 c0
      rw [List.foldl_cons, trainStep_eval, ih, trainStats_cons]
      simp only [List.map_cons, List.sum_cons]
      omega

theorem train_foldl_loss {σ : Type}
    (forward : σ → List (List ℚ) → List (List ℚ))
    (update : σ → List (List ℚ) → σ)
    (criterion : List (List ℚ) → List ℚ → ℚ)
    (mixup : Bool) (alpha : ℚ) :
    ∀ (bs : List ((List (List ℚ) × List ℚ) × (List ℚ × List ℕ)))
      (s : σ) (t0 : ℕ) (l0 : ℚ) (c0 : ℕ),
    (bs.foldl (trainStep forward update criterion mixup alpha)
        ⟨s, t0, l0, c0⟩).total_loss
      = l0 + ((trainStats forward update criterion mixup alpha s bs).map
          (fun r => r.1 * (r.2.1 : ℚ))).sum := by
  intro bs
  induction bs with
  | nil => intro s t0 l0 c0; simp [trainStats]
  | cons b rest ih =>
      intro s t0 l0 c0
      rw [List.foldl_cons, trainStep_eval, ih, trainStats_cons]
      simp only [List.map_cons, List.sum_cons]
      rw [add_assoc]

theorem train_foldl_correct {σ : Type}
    (forward : σ → List (List ℚ) → List (List ℚ))
    (update : σ → List (List ℚ) → σ)
    (criterion : List (List ℚ) → List ℚ → ℚ)
    (mixup : Bool) (alpha : ℚ) :
    ∀ (bs : List ((List (List ℚ) × List ℚ) × (List ℚ × List ℕ)))
      (s : σ) (t0 : ℕ) (l0 : ℚ) (c0 : ℕ),
    (bs.foldl (trainStep forward update criterion mixup alpha)
        ⟨s, t0, l0, c0⟩).total_correct
      = c0 + ((trainStats forward update criterion mixup alpha s bs).map
          (fun r => r.2.2)).sum := by
  intro bs
  induction bs with
  | nil => intro s t0 l0 c0; simp [trainStats]
  | cons b rest ih =>
      intro s t0 l0 c0
      rw [List.foldl_cons, trainStep_eval, ih, trainStats_cons]
      simp only [List.map_cons, List.sum_cons]
      omega

theorem validateAccumulate_foldl (stats : List (ℚ × ℕ × ℕ)) :
    ∀ (t0 : ℕ) (l0 : ℚ) (c0 : ℕ),
    stats.foldl
        (fun (acc : ℕ × ℚ × ℕ) r =>
          (acc.1 + r.2.1, acc.2.1 + r.1 * (r.2.1 : ℚ), acc.2.2 + r.2.2))
        (t0, l0, c0)
      = (t0 + (stats.map (fun r => r.2.1)).sum,
         l0 + (stats.map (fun r => r.1 * (r.2.1 : ℚ))).sum,
         c0 + (stats.map (fun r => r.2.2)).sum) := by
  induction stats with
  | nil => intro t0 l0 c0; simp
  | cons b rest ih =>
      intro t0 l0 c0
      rw [List.foldl_cons, ih]
      simp only [List.map_cons, List.sum_cons]
      refine congrArg₂ _ (by omega) (congrArg₂ _ (by rw [add_assoc]) (by omega))

theorem validateAccumulate_spec (stats : List (ℚ × ℕ × ℕ)) :
    validateAccumulate stats
      = if (stats.map (fun r => r.2.1)).sum = 0 then none
        else some
          ((stats.map (fun r => r.1 * (r.2.1 : ℚ))).sum
              / ((((stats.map (fun r => r.2.1)).sum : ℕ)) : ℚ),
           ((((stats.map (fun r => r.2.2)).sum : ℕ)) : ℚ)
              / ((((stats.map (fun r => r.2.1)).sum : ℕ)) : ℚ)) := by
  unfold validateAccumulate
  rw [validateAccumulate_foldl]
  simp only [zero_add]

/-- C4: `train` and `validate` return
`(total_loss / total, total_correct / total)`: the example-weighted
running mean of per-batch losses (each batch loss weighted by its batch
size) and the running correct count over the total number of examples
processed.  The per-batch triples are `trainStats` /
`validateBatchEval`. -/
theorem train_validate_running_stats {σ : Type}
    (forward : σ → List (List ℚ) → List (List ℚ))
    (update : σ → List (List ℚ) → σ)
    (criterion : List (List ℚ) → List ℚ → ℚ)
    (mixup : Bool) (alpha : ℚ) (s0 : σ)
    (dataloader : List (List (List ℚ) × List ℚ))
    (rands : List (List ℚ × List ℕ))
    (model : List (List ℚ) → List (List ℚ))
    (crit : List (List ℚ) → List ℚ → ℚ)
    (vdl : List (List (List ℚ) × List ℚ))
    (ht : ((trainStats forward update criterion mixup alpha s0
        (dataloader.zip rands)).map (fun r => r.2.1)).sum ≠ 0)
    (hv : ((vdl.map (validateBatchEval model crit)).map
        (fun r => r.2.1)).sum ≠ 0) :
    train forward update criterion mixup alpha s0 dataloader rands
      = some
        (((trainStats forward update criterion mixup alpha s0
              (dataloader.zip rands)).map
            (fun r => r.1 * (r.2.1 : ℚ))).sum
          / ((((trainStats forward update criterion mixup alpha s0
              (dataloader.zip rands)).map (fun r => r.2.1)).sum : ℕ) : ℚ),
         ((((trainStats forward update criterion mixup alpha s0
              (dataloader.zip rands)).map (fun r => r.2.2)).sum : ℕ) : ℚ)
          / ((((trainStats forward update criterion mixup alpha s0
              (dataloader.zip rands)).map (fun r => r.2.1)).sum : ℕ) : ℚ)) ∧
    validate model crit vdl
      = some
        (((vdl.map (validateBatchEval model crit)).map
            (fun r => r.1 * (r.2.1 : ℚ))).sum
          / ((((vdl.map (validateBatchEval model crit)).map
              (fun r => r.2.1)).sum : ℕ) : ℚ),
         ((((vdl.map (validateBatchEval model crit)).map
              (fun r => r.2.2)).sum : ℕ) : ℚ)
          / ((((vdl.map (validateBatchEval model crit)).map
              (fun r => r.2.1)).sum : ℕ) : ℚ)) := by
  constructor
  · show (if ((dataloader.zip rands).foldl
          (trainStep forward update criterion mixup alpha)
          ⟨s0, 0, 0, 0⟩).total = 0 then none
        else some
          (((dataloader.zip rands).foldl
              (trainStep forward update criterion mixup alpha)
              ⟨s0, 0, 0, 0⟩).total_loss
            / ((((dataloader.zip rands).foldl
              (trainStep forward update criterion mixup alpha)
              ⟨s0, 0, 0, 0⟩).total : ℕ) : ℚ),
           ((((dataloader.zip rands).foldl
              (trainStep forward update criterion mixup alpha)
              ⟨s0, 0, 0, 0⟩).total_correct : ℕ) : ℚ)
            / ((((dataloader.zip rands).foldl
              (trainStep forward update criterion mixup alpha)
              ⟨s0, 0, 0, 0⟩).total : ℕ) : ℚ))) = _
    rw [train_foldl_total, train_foldl_loss, train_foldl_correct]
    simp only [zero_add]
    rw [if_neg ht]
  · show validateAccumulate _ = _
    rw [validateAccumulate_spec, if_neg hv]

theorem chunk_getElem? {α : Type} (k : ℕ) (l : List α) (i : ℕ)
    (hi : i < l.length / k) :
    (chunk k l)[i]? = some ((l.drop (i * k)).take k) := by
  unfold chunk
  rw [List.getElem?_map, List.getElem?_range hi]
  rfl

theorem drop_take_eq_range_map (out : List (List ℚ)) (a m : ℕ)
    (h : a + m ≤ out.length) :
    (out.drop a).take m
      = (List.range m).map (fun j => out.getD (a + j) []) := by
  apply List.ext_getElem?
  intro i
  by_cases hi : i < m
  · rw [List.getElem?_take, if_pos hi, List.getElem?_drop,
      List.getElem?_map, List.getElem?_range hi]
    simp only [Option.map_some']
    have hlt : a + i < out.length := by omega
    rw [List.getD_eq_getElem out [] hlt, List.getElem?_eq_getElem hlt]
  · rw [List.getElem?_take, if_neg hi]
    rw [List.getElem?_eq_none]
    simp
    omega

theorem range_map_getLastD {β : Type} (k : ℕ) (f : ℕ → β) (d : β)
    (hk : 0 < k) :
    ((List.range k).map f).getLastD d = f (k - 1) := by
  obtain ⟨m, rfl⟩ : ∃ m, k = m + 1 := ⟨k - 1, by omega⟩
  rw [List.range_succ, List.map_append]
  rw [List.getLastD_eq_getLast?]
  simp

theorem range_map_dropLast {β : Type} (k : ℕ) (f : ℕ → β) :
    ((List.range k).map f).dropLast = (List.range (k - 1)).map f := by
  cases k with
  | zero => simp
  | succ m =>
      rw [List.range_succ, List.map_append]
      simp [List.dropLast_concat]

theorem flatten_getD_uniform {α : Type} (d : α) :
    ∀ (x : List (List α)) (k i j : ℕ), (∀ v ∈ x, v.length = k) →
      i < x.length → j < k →
      x.flatten.getD (i * k + j) d = (x.getD i []).getD j d := by
  intro x
  induction x with
  | nil => intro k i j _ hi _; simp at hi
  | cons v rest ih =>
      intro k i j huni hi hj
      cases i with
      | zero =>
          show (v ++ rest.flatten).getD (0 * k + j) d = v.getD j d
          have hv : v.length = k := huni v (by simp)
          rw [Nat.zero_mul, Nat.zero_add]
          exact List.getD_append v rest.flatten d j (by omega)
      | succ i' =>
          show (v ++ rest.flatten).getD ((i' + 1) * k + j) d
              = (rest.getD i' []).getD j d
          have hv : v.length = k := huni v (by simp)
          have harith : (i' + 1) * k + j = k + (i' * k + j) := by ring
          rw [harith, List.getD_append_right v rest.flatten d _ (by omega)]
          have : k + (i' * k + j) - v.length = i' * k + j := by omega
          rw [this]
          exact ih k i' j (fun w hw => huni w (by simp [hw]))
            (by simpa using hi) hj

/-- C3 (amended): with `tta=True`, `validate` computes each example's
output not as the equal-weight average over its augmented views but as a
blend: the model's prediction on the LAST view with weight
`1 - tta_mixing` plus `tta_mixing` times the equal-weight mean of the
predictions on the remaining views; the argmax and the loss are then
taken on that blended output.  Row `i * n_aug + j` of the model output is
view `j` of example `i` (see `flatten_getD_uniform`). -/
theorem validateTta_blend_spec
    (model : List (List ℚ) → List (List ℚ))
    (crit : List (List ℚ) → List ℚ → ℚ)
    (tm : ℚ) (x : List (List (List ℚ))) (y : List ℚ) (i : ℕ)
    (hk : 0 < (x.headD []).length)
    (hlen : (model x.flatten).length = x.length * (x.headD []).length)
    (hi : i < x.length) :
    (validateTtaOutput model tm x)[i]?
      = some (vadd
          (vscale (1 - tm)
            ((model x.flatten).getD
              (i * (x.headD []).length + ((x.headD []).length - 1)) []))
          (vscale tm
            (vmean ((List.range ((x.headD []).length - 1)).map (fun j =>
              (model x.flatten).getD
                (i * (x.headD []).length + j) []))))) ∧
    (validateTtaBatchEval model crit tm (x, y)).1
        = crit (validateTtaOutput model tm x) y ∧
    (validateTtaBatchEval model crit tm (x, y)).2.2
        = countEq (((validateTtaOutput model tm x).map argmaxIdx).map
            (fun p => (p : ℚ))) y := by
  refine ⟨?_, rfl, rfl⟩
  have hdiv : i < (model x.flatten).length / (x.headD []).length := by
    rw [hlen, Nat.mul_div_cancel _ hk]
    exact hi
  show ((chunk (x.headD []).length (model x.flatten)).map
      (ttaBlend tm))[i]? = _
  rw [List.getElem?_map, chunk_getElem? _ _ _ hdiv]
  simp only [Option.map_some']
  have hbound : i * (x.headD []).length + (x.headD []).length
      ≤ (model x.flatten).length := by
    rw [hlen]
    calc i * (x.headD []).length + (x.headD []).length
        = (i + 1) * (x.headD []).length := by ring
      _ ≤ x.length * (x.headD []).length :=
          Nat.mul_le_mul_right _ hi
  rw [drop_take_eq_range_map _ _ _ hbound]
  unfold ttaBlend
  rw [range_map_getLastD _ _ _ hk, range_map_dropLast]

/-- C3 counterexample to the claim as stated: with the identity model on
a batch of one example with two views `[0]` and `[1]` and the source's
default `tta_mixing = 0.6`, `validate`'s TTA output is `[0.4]` while the
equal-contribution average of the views' predictions is `[0.5]`. -/
theorem validateTta_not_equal_average :
    validateTtaOutput (fun l => l) (6 / 10) [[[0], [1]]]
        = [[2 / 5]] ∧
    ttaEqualAverageOutput (fun l => l) [[[0], [1]]] = [[1 / 2]] ∧
    validateTtaOutput (fun l => l) (6 / 10) [[[0], [1]]]
        ≠ ttaEqualAverageOutput (fun l => l) [[[0], [1]]] := by
  have h1 : validateTtaOutput (fun l => l) (6 / 10) [[[0], [1]]]
      = [[2 / 5]] := by with_unfolding_all rfl
  have h2 : ttaEqualAverageOutput (fun l => l) [[[0], [1]]]
      = [[1 / 2]] := by with_unfolding_all rfl
  refine ⟨h1, h2, ?_⟩
  rw [h1, h2]
  intro hcon
  have h3 : (2 / 5 : ℚ) = 1 / 2 := by
    simpa using congrArg (fun l => (l.headD []).headD 0) hcon
  norm_num at h3

/-- Witness for C1 at a concrete batch of two examples. -/
theorem mixup_data_pos_spec_witness :
    (0 : ℚ) < 1 ∧
    ([1, 0] : List ℕ).Perm
      (List.range ([[1, 2], [3, 4]] : List (List ℚ)).length) ∧
    ([1 / 4, 2 / 3] : List ℚ).length
      = ([[1, 2], [3, 4]] : List (List ℚ)).length ∧
    (mixup_data (fun _ tgt => tgt.sum) 1 [1 / 4, 2 / 3] [1, 0]
        [[1, 2], [3, 4]] [5, 7]).lam
      = .perExample (([1 / 4, 2 / 3] : List ℚ).map betaAdjust) ∧
    (mixup_data (fun _ tgt => tgt.sum) 1 [1 / 4, 2 / 3] [1, 0]
        [[1, 2], [3, 4]] [5, 7]).mixed_x.getD 0 []
      = vadd
          (vscale (betaAdjust (([1 / 4, 2 / 3] : List ℚ).getD 0 0))
            (([[1, 2], [3, 4]] : List (List ℚ)).getD 0 []))
          (vscale (1 - betaAdjust (([1 / 4, 2 / 3] : List ℚ).getD 0 0))
            (([[1, 2], [3, 4]] : List (List ℚ)).getD
              (([1, 0] : List ℕ).getD 0 0) [])) ∧
    (mixup_data (fun _ tgt => tgt.sum) 1 [1 / 4, 2 / 3] [1, 0]
        [[1, 2], [3, 4]] [5, 7]).y_b
      = ([1, 0] : List ℕ).map (fun j => ([5, 7] : List ℚ).getD j 0) ∧
    (mixup_data (fun _ tgt => tgt.sum) 1 [1 / 4, 2 / 3] [1, 0]
        [[1, 2], [3, 4]] [5, 7]).mixup_criterion [[9], [9]]
      = ((([1 / 4, 2 / 3] : List ℚ).map betaAdjust).map (fun li =>
          li * (fun (_ : List (List ℚ)) (tgt : List ℚ) => tgt.sum)
              [[9], [9]] [5, 7]
            + (1 - li) * (fun (_ : List (List ℚ)) (tgt : List ℚ) => tgt.sum)
              [[9], [9]]
              (([1, 0] : List ℕ).map
                (fun j => ([5, 7] : List ℚ).getD j 0)))).sum
        / (([[1, 2], [3, 4]] : List (List ℚ)).length : ℚ) := by
  have h := mixup_data_pos_spec (fun _ tgt => tgt.sum) 1 [1 / 4, 2 / 3]
    [1, 0] [[1, 2], [3, 4]] [5, 7] (by norm_num) (by decide) rfl
  exact ⟨by norm_num, by decide, rfl, h.1, h.2.2.1 0 (by decide),
    h.2.2.2.2.1, h.2.2.2.2.2 [[9], [9]]⟩

/-- Witness for C8 at `alpha = 0` on a concrete batch. -/
theorem mixup_data_nonpos_identity_witness :
    (0 : ℚ) ≤ 0 ∧
    (∀ j ∈ ([1, 0] : List ℕ), j < ([[1, 2], [3, 4]] : List (List ℚ)).length) ∧
    (∀ row ∈ ([[1, 2], [3, 4]] : List (List ℚ)), row.length = 2) ∧
    (mixup_data (fun _ tgt => tgt.sum) 0 [] [1, 0]
        [[1, 2], [3, 4]] [5, 7]).lam = .scalar 1 ∧
    (mixup_data (fun _ tgt => tgt.sum) 0 [] [1, 0]
        [[1, 2], [3, 4]] [5, 7]).mixed_x = [[1, 2], [3, 4]] ∧
    (mixup_data (fun _ tgt => tgt.sum) 0 [] [1, 0]
        [[1, 2], [3, 4]] [5, 7]).y_a = [5, 7] ∧
    (mixup_data (fun _ tgt => tgt.sum) 0 [] [1, 0]
        [[1, 2], [3, 4]] [5, 7]).mixup_criterion [[2, 1]]
      = (fun (_ : List (List ℚ)) (tgt : List ℚ) => tgt.sum) [[2, 1]] [5, 7] ∧
    trainBatchEval (fun (_ : Unit) b => b) (fun s _ => s)
        (fun _ tgt => tgt.sum) false 0 () (([[1]], [0]), ([], [0]))
      = trainBatchEval (fun (_ : Unit) b => b) (fun s _ => s)
        (fun _ tgt => tgt.sum) false 0 () (([[1]], [0]), ([], [0])) := by
  have h := mixup_data_nonpos_identity (fun (_ : Unit) b => b) (fun s _ => s)
    (fun _ tgt => tgt.sum) 0 [] [1, 0] [[1, 2], [3, 4]] [5, 7]
    () (([[1]], [0]), ([], [0])) [[2, 1]] 2
    (by norm_num) rfl (by decide) (by decide)
  exact ⟨by norm_num, by decide, by decide, h.1, h.2.1, h.2.2.1,
    h.2.2.2.1, rfl⟩

/-- Witness for C9 at the Beta sample `1/4`. -/
theorem mixup_lam_bounds_witness :
    (0 : ℚ) < 1 ∧
    (0 ≤ (1 / 4 : ℚ) ∧ (1 / 4 : ℚ) ≤ 1) ∧
    (mixup_data (fun _ tgt => tgt.sum) 1 [1 / 4] [0] [[1]] [2]).lam
      = .perExample (([1 / 4] : List ℚ).map betaAdjust) ∧
    (1 / 2 ≤ betaAdjust (1 / 4) ∧ betaAdjust (1 / 4) ≤ 1) := by
  have h := mixup_lam_bounds (fun _ tgt => tgt.sum) 1 [1 / 4] [0] [[1]] [2]
    (by norm_num)
    (by
      intro l hl
      rw [List.mem_singleton] at hl
      subst hl
      constructor <;> norm_num)
  refine ⟨by norm_num, by constructor <;> norm_num, h.1, ?_⟩
  exact h.2 (betaAdjust (1 / 4))
    (List.mem_map_of_mem betaAdjust (by simp))

/-- Witness for C2 on a three-parameter model (two body parameters, one
head parameter), `base_lr = 1/10`, bounds `(1/100, 1/50)`, ratio `2`. -/
theorem get_param_lr_maps_pair_spec_witness :
    1 ≤ (bodyParameters [((["conv", "w"] : List String), (0 : ℕ)),
        (["bn", "w"], 1), (["out_fc", "w"], 2)]).length ∧
    (get_param_lr_maps [((["conv", "w"] : List String), (0 : ℕ)),
        (["bn", "w"], 1), (["out_fc", "w"], 2)] [2] (1 / 10)
        (.inr (1 / 100, 1 / 50)) 2).length
      = (bodyParameters [((["conv", "w"] : List String), (0 : ℕ)),
        (["bn", "w"], 1), (["out_fc", "w"], 2)]).length + 1 ∧
    (get_param_lr_maps [((["conv", "w"] : List String), (0 : ℕ)),
        (["bn", "w"], 1), (["out_fc", "w"], 2)] [2] (1 / 10)
        (.inr (1 / 100, 1 / 50)) 2)[0]?
      = ((bodyParameters [((["conv", "w"] : List String), (0 : ℕ)),
          (["bn", "w"], 1), (["out_fc", "w"], 2)])[0]?).map (fun np =>
            ⟨.single np.2, (1 / 10 * (1 / 100)) * 2 ^ 0⟩) ∧
    ((get_param_lr_maps [((["conv", "w"] : List String), (0 : ℕ)),
        (["bn", "w"], 1), (["out_fc", "w"], 2)] [2] (1 / 10)
        (.inr (1 / 100, 1 / 50)) 2)[0 + 1]?).map ParamGroup.lr
      = (((get_param_lr_maps [((["conv", "w"] : List String), (0 : ℕ)),
          (["bn", "w"], 1), (["out_fc", "w"], 2)] [2] (1 / 10)
          (.inr (1 / 100, 1 / 50)) 2)[0]?).map ParamGroup.lr).map
            (fun q => 2 * q) ∧
    ((get_param_lr_maps [((["conv", "w"] : List String), (0 : ℕ)),
        (["bn", "w"], 1), (["out_fc", "w"], 2)] [2] (1 / 10)
        (.inr (1 / 100, 1 / 50)) 2)[0]?).map ParamGroup.lr
      = some (1 / 10 * (1 / 100)) ∧
    ((get_param_lr_maps [((["conv", "w"] : List String), (0 : ℕ)),
        (["bn", "w"], 1), (["out_fc", "w"], 2)] [2] (1 / 10)
        (.inr (1 / 100, 1 / 50)) 2)[
          (bodyParameters [((["conv", "w"] : List String), (0 : ℕ)),
            (["bn", "w"], 1), (["out_fc", "w"], 2)]).length - 1]?).map
        ParamGroup.lr
      = some (1 / 10 * (1 / 50)) ∧
    (get_param_lr_maps [((["conv", "w"] : List String), (0 : ℕ)),
        (["bn", "w"], 1), (["out_fc", "w"], 2)] [2] (1 / 10)
        (.inr (1 / 100, 1 / 50)) 2)[
          (bodyParameters [((["conv", "w"] : List String), (0 : ℕ)),
            (["bn", "w"], 1), (["out_fc", "w"], 2)]).length]?
      = some ⟨.plist [2], 1 / 10⟩ := by
  have h := get_param_lr_maps_pair_spec
    [((["conv", "w"] : List String), (0 : ℕ)),
      (["bn", "w"], 1), (["out_fc", "w"], 2)] [2] (1 / 10) (1 / 100)
    (1 / 50) 2 (by decide) (by with_unfolding_all rfl)
  exact ⟨by decide, h.1, h.2.1 0 (by decide), h.2.2.1 0 (by decide),
    h.2.2.2.1, h.2.2.2.2.1, h.2.2.2.2.2⟩

/-- Witness for C3 (amended) on a one-example, two-view batch with the
identity model. -/
theorem validateTta_blend_spec_witness :
    0 < (([[[(0 : ℚ)], [1]]] : List (List (List ℚ))).headD []).length ∧
    (([[[(0 : ℚ)], [1]]] : List (List (List ℚ))).flatten).length
      = ([[[(0 : ℚ)], [1]]] : List (List (List ℚ))).length
        * (([[[(0 : ℚ)], [1]]] : List (List (List ℚ))).headD []).length ∧
    (validateTtaOutput (fun l => l) (6 / 10) [[[0], [1]]])[0]?
      = some (vadd
          (vscale (1 - 6 / 10)
            (([[(0 : ℚ)], [1]] : List (List ℚ)).getD (0 * 2 + (2 - 1)) []))
          (vscale (6 / 10)
            (vmean ((List.range (2 - 1)).map (fun j =>
              ([[(0 : ℚ)], [1]] : List (List ℚ)).getD (0 * 2 + j) []))))) ∧
    (validateTtaBatchEval (fun l => l)
        (fun (_ : List (List ℚ)) (tgt : List ℚ) => tgt.sum) (6 / 10)
        ([[[0], [1]]], [0])).1
      = (fun (_ : List (List ℚ)) (tgt : List ℚ) => tgt.sum)
          (validateTtaOutput (fun l => l) (6 / 10) [[[0], [1]]]) [0] := by
  have h := validateTta_blend_spec (fun l => l)
    (fun (_ : List (List ℚ)) (tgt : List ℚ) => tgt.sum) (6 / 10)
    [[[0], [1]]] [0] 0 (by decide) (by decide) (by decide)
  exact ⟨by decide, by decide, h.1, h.2.1⟩

/-- Witness for C4 on one-batch train and validation runs. -/
theorem train_validate_running_stats_witness :
    ((trainStats (fun (_ : Unit) b => b) (fun s _ => s)
        (fun _ tgt => tgt.sum) false (4 / 10) ()
        ([([[1]], [0])].zip [([1 / 2], [0])])).map
      (fun r => r.2.1)).sum ≠ 0 ∧
    (([([[1]], [0])].map (validateBatchEval (fun b => b)
        (fun _ tgt => tgt.sum))).map (fun r => r.2.1)).sum ≠ 0 ∧
    train (fun (_ : Unit) b => b) (fun s _ => s) (fun _ tgt => tgt.sum)
        false (4 / 10) () [([[1]], [0])] [([1 / 2], [0])]
      = some
        (((trainStats (fun (_ : Unit) b => b) (fun s _ => s)
              (fun _ tgt => tgt.sum) false (4 / 10) ()
              ([([[1]], [0])].zip [([1 / 2], [0])])).map
            (fun r => r.1 * (r.2.1 : ℚ))).sum
          / ((((trainStats (fun (_ : Unit) b => b) (fun s _ => s)
              (fun _ tgt => tgt.sum) false (4 / 10) ()
              ([([[1]], [0])].zip [([1 / 2], [0])])).map
            (fun r => r.2.1)).sum : ℕ) : ℚ),
         ((((trainStats (fun (_ : Unit) b => b) (fun s _ => s)
              (fun _ tgt => tgt.sum) false (4 / 10) ()
              ([([[1]], [0])].zip [([1 / 2], [0])])).map
            (fun r => r.2.2)).sum : ℕ) : ℚ)
          / ((((trainStats (fun (_ : Unit) b => b) (fun s _ => s)
              (fun _ tgt => tgt.sum) false (4 / 10) ()
              ([([[1]], [0])].zip [([1 / 2], [0])])).map
            (fun r => r.2.1)).sum : ℕ) : ℚ)) ∧
    validate (fun b => b) (fun _ tgt => tgt.sum) [([[1]], [0])]
      = some
        ((([([[1]], [0])].map (validateBatchEval (fun b => b)
              (fun _ tgt => tgt.sum))).map
            (fun r => r.1 * (r.2.1 : ℚ))).sum
          / (((([([[1]], [0])].map (validateBatchEval (fun b => b)
              (fun _ tgt => tgt.sum))).map (fun r => r.2.1)).sum : ℕ) : ℚ),
         (((([([[1]], [0])].map (validateBatchEval (fun b => b)
              (fun _ tgt => tgt.sum))).map (fun r => r.2.2)).sum : ℕ) : ℚ)
          / (((([([[1]], [0])].map (validateBatchEval (fun b => b)
              (fun _ tgt => tgt.sum))).map (fun r => r.2.1)).sum : ℕ) : ℚ)) := by
  have h := train_validate_running_stats (fun (_ : Unit) b => b)
    (fun s _ => s) (fun _ tgt => tgt.sum) false (4 / 10) ()
    [([[1]], [0])] [([1 / 2], [0])] (fun b => b) (fun _ tgt => tgt.sum)
    [([[1]], [0])] (by decide) (by decide)
  exact ⟨by decide, by decide, h.1, h.2⟩
